import Mathlib

/-!
Verification of the playback-state persistence loop of a Qt web-player
wrapper (`src/main.cpp`).  The subsystem under study consists of

* `js_read_state` (main.cpp:157-180): injected script extracting a
  playback descriptor `{id, time, paused}` from the page;
* the capture lambda on the 4-second `stateTimer` (main.cpp:328-352):
  parse the extraction output, stamp `saved_at` and write it to the state
  file, or write the raw output verbatim on parse failure;
* the restore lambda on `loadFinished` (main.cpp:355-374): read the state
  file, parse it, rebuild a normalized `{id, time, paused}` object and
  inject `js_restore_state_template`;
* `js_restore_state_template` (main.cpp:183-212): clamp-and-seek with a
  500 ms polling retry loop guarded by `tries > 20`.

Modelling conventions: JSON numbers are rationals (`ℚ`); a byte string
handed to Qt's JSON codec is modelled by `JText`, which records whether
`QJsonDocument::fromJson` succeeds on it (`valid j`) or fails
(`invalid s`, carrying the raw bytes).  This embeds the external codec's
two guaranteed properties: serializing an object and reparsing it yields
the same object, and a text that failed to parse fails again when re-read
unchanged.  File contents are `Option JText` (`none` = file absent).
-/

set_option autoImplicit false

namespace Player

/-- Model of a JSON value (`QJsonValue` / a parsed JS value). -/
inductive Json where
  | null
  | bool (b : Bool)
  | num (q : ℚ)
  | str (s : String)
  | arr (elems : List Json)
  | obj (fields : List (String × Json))

/-- A byte string as seen through Qt's JSON codec: either it parses to a
document (`valid`) or it does not (`invalid`, carrying the raw bytes). -/
inductive JText where
  | valid (j : Json)
  | invalid (s : String)

/-- Emptiness of the underlying text (`QString::isEmpty`).  The empty
string never parses as JSON, so a `valid` text is nonempty. -/
def JText.isEmpty : JText → Bool
  | .valid _ => false
  | .invalid s => s == ""

/-- Field list of the document's top-level object (`QJsonDocument::object`):
the fields when the document holds an object, empty otherwise (in
particular for a top-level array). -/
def docObject : Json → List (String × Json)
  | .obj fields => fields
  | _ => []

/-- First-match association-list lookup (`QJsonObject::value`, and property
access on a JS object literal). -/
def lookupField : List (String × Json) → String → Option Json
  | [], _ => none
  | (k, v) :: rest, key => if k = key then some v else lookupField rest key

/-- Replace the value under a key, or append the binding
(`QJsonObject::operator[]=`). -/
def setField : List (String × Json) → String → Json → List (String × Json)
  | [], key, v => [(key, v)]
  | (k, w) :: rest, key, v =>
      if k = key then (key, v) :: rest else (k, w) :: setField rest key v

/-- Look a key up in the document's top-level object. -/
def jLookup (j : Json) (key : String) : Option Json :=
  lookupField (docObject j) key

/-- QJsonValue::toString with no argument: the string value, or the empty
string for a missing or non-string value. -/
def jvToString : Option Json → String
  | some (.str s) => s
  | _ => ""

/-- QJsonValue::toString with a default: the string value, or the default
for a missing or non-string value. -/
def jvToStringD (v : Option Json) (d : String) : String :=
  match v with
  | some (.str s) => s
  | _ => d

/-- QJsonValue::toDouble with a default: the numeric value, or the default
for a missing or non-numeric value. -/
def jvToDouble (v : Option Json) (d : ℚ) : ℚ :=
  match v with
  | some (.num q) => q
  | _ => d

/-- QJsonValue::toBool with a default: the boolean value, or the default
for a missing or non-boolean value. -/
def jvToBool (v : Option Json) (d : Bool) : Bool :=
  match v with
  | some (.bool b) => b
  | _ => d

/-- JS truthiness of a possibly-missing value (a missing property reads as
`undefined`, which is falsy). -/
def jTruthy : Option Json → Bool
  | some (.bool b) => b
  | some (.num q) => if q = 0 then false else true
  | some (.str s) => if s = "" then false else true
  | some .null => false
  | some (.arr _) => true
  | some (.obj _) => true
  | none => false

/-- The object literal `{id: String(id), time: Number(time), paused:
Boolean(paused)}` built by `js_read_state`, and likewise the normalized
state object rebuilt by the restore lambda. -/
def mkStateJson (id : String) (t : ℚ) (p : Bool) : Json :=
  .obj [("id", .str id), ("time", .num t), ("paused", .bool p)]

/-! ## Extraction (`js_read_state`, main.cpp:157-180) -/

/-- The generic media element (`document.querySelector('audio')`). -/
structure AudioState where
  currentTime : ℚ
  paused : Bool

/-- The page state visible to `js_read_state`.  `playerGetCurrentTime` is
`some t` when `window.player` exists, exposes `getCurrentTime`, and the
call returns `t` without throwing; `none` otherwise (absent player, absent
accessor, or a thrown exception, all of which leave `time` untouched).
`playerIsPlaying` likewise for `isPlaying`. -/
structure PageEnv where
  locationHash : String
  locationPathname : String
  documentTitle : String
  audio : Option AudioState
  playerGetCurrentTime : Option ℚ
  playerIsPlaying : Option Bool

/-- JS `||` on strings: the left operand unless it is empty (falsy). -/
def jsOrStr (a b : String) : String :=
  if a = "" then b else a

/-- JS `||` on numbers restricted to `ℚ`: the left operand unless it is
`0` (the other falsy numeric value, `NaN`, has no `ℚ` counterpart). -/
def numOr (a b : ℚ) : ℚ :=
  if a = 0 then b else a

/-- The identifier `location.hash || location.pathname || document.title
|| 'unknown'`. -/
def pageId (env : PageEnv) : String :=
  jsOrStr env.locationHash (jsOrStr env.locationPathname
    (jsOrStr env.documentTitle "unknown"))

/-- The object serialized by `js_read_state`: audio element preferred
(`audio.currentTime || 0`, `audio.paused`), otherwise the site player's
accessors with `time = 0`, `paused = true` as the untouched defaults. -/
def readJson (env : PageEnv) : Json :=
  match env.audio with
  | some a => mkStateJson (pageId env) (numOr a.currentTime 0) a.paused
  | none =>
      mkStateJson (pageId env)
        (match env.playerGetCurrentTime with
         | some t => t
         | none => 0)
        (match env.playerIsPlaying with
         | some b => !b
         | none => true)

/-- The extraction result as a text: `JSON.stringify` of `readJson`, which
Qt reparses to the same object. -/
def js_read_state (env : PageEnv) : JText :=
  .valid (readJson env)

/-! ## Capture (stateTimer timeout lambda, main.cpp:328-352) -/

/-- Insert the `saved_at` stamp: `obj["saved_at"] = <now>` applied to
`doc.object()`. -/
def stampSavedAt (j : Json) (now : String) : Json :=
  .obj (setField (docObject j) "saved_at" (.str now))

/-- One capture tick.  `result` is the `runJavaScript` callback value
(`none` = invalid `QVariant`), `now` the UTC timestamp, `writeOk` whether
`QFile::open(WriteOnly)` succeeds, `prev` the file contents before the
tick.  Returns the file contents after the tick.  Mirrors
main.cpp:329-351: drop invalid or empty results; on parse failure write
the raw bytes verbatim; on success stamp `saved_at` and write the object;
a failed open leaves the file untouched. -/
def captureStep (result : Option JText) (now : String) (writeOk : Bool)
    (prev : Option JText) : Option JText :=
  match result with
  | none => prev
  | some jt =>
    if jt.isEmpty then prev
    else
      match jt with
      | .invalid s => if writeOk then some (.invalid s) else prev
      | .valid j => if writeOk then some (.valid (stampSavedAt j now)) else prev

/-! ## Restore (loadFinished lambda, main.cpp:355-374) -/

/-- What the restore lambda does to the content surface: nothing, or
dispatch the injected script with a state object.  `error` exists to make
"raises no error" expressible; no code path produces it. -/
inductive RestoreAction where
  | noop
  | dispatch (st : Json)
  | error (msg : String)

/-- The normalized state object rebuilt at main.cpp:366-369:
`id = value("id").toString(value("id").toString())`,
`time = value("time").toDouble(0.0)`,
`paused = value("paused").toBool(true)`. -/
def normalizeState (j : Json) : Json :=
  mkStateJson
    (jvToStringD (jLookup j "id") (jvToString (jLookup j "id")))
    (jvToDouble (jLookup j "time") 0)
    (jvToBool (jLookup j "paused") true)

/-- One restore event.  `ok` is the `loadFinished` success flag, `file`
the state-file contents (`none` = absent), `openOk` whether
`QFile::open(ReadOnly)` succeeds.  Returns the action taken and the file
contents afterwards (the lambda never writes, so the file passes through
unchanged).  Mirrors main.cpp:355-373. -/
def restoreStep (ok : Bool) (file : Option JText) (openOk : Bool) :
    RestoreAction × Option JText :=
  if ok then
    match file with
    | none => (.noop, file)
    | some content =>
      if openOk then
        match content with
        | .invalid _ => (.noop, file)
        | .valid j => (.dispatch (normalizeState j), file)
      else (.noop, file)
  else (.noop, file)

/-! ## Injected restore script (`js_restore_state_template`, main.cpp:183-212) -/

/-- The media environment the injected restore script runs against.
`readyAt n` is whether `audio.readyState > 0` holds at the n-th `setOnce`
attempt (`n = 0` is the immediate attempt, `n ≥ 1` the 500 ms interval
firings).  `duration` is `audio.duration`, with `none` modelling `NaN`
(duration unknown).  `playerSeek` is whether `window.player` exists and
exposes `seek`. -/
structure MediaEnv where
  audioPresent : Bool
  readyAt : ℕ → Bool
  duration : Option ℚ
  playerSeek : Bool

/-- The value written to `audio.currentTime`:
`Math.min(state.time, audio.duration || state.time)`.  A falsy duration
(`0` or `NaN`) makes the second operand `state.time` itself, so no
clamping happens then. -/
def clampPos (t : ℚ) (dur : Option ℚ) : ℚ :=
  match dur with
  | some d => if d = 0 then t else min t d
  | none => t

/-- One `setOnce()` attempt (main.cpp:188-197): if the element is ready,
set the clamped position and call `play()` when `!state.paused`, returning
the position written and whether `play()` was invoked; otherwise report
failure. -/
def setOnce (ready : Bool) (t : ℚ) (dur : Option ℚ) (pausedTruthy : Bool) :
    Option (ℚ × Bool) :=
  if ready then some (clampPos t dur, !pausedTruthy) else none

/-- Outcome of the injected restore script.  `applied pos played n` means
the n-th `setOnce` attempt succeeded (`n = 0` immediate, else the n-th
interval firing), writing `pos` and calling `play()` iff `played`.
`exhausted n` means the interval loop gave up after `n` firings.
`playerFallback` is the `window.player.seek` branch; `noRestore` means
neither surface was available. -/
inductive RestoreOutcome where
  | applied (pos : ℚ) (played : Bool) (attempt : ℕ)
  | exhausted (attempts : ℕ)
  | playerFallback (t : Option Json) (played : Bool)
  | noRestore

/-- The `setInterval` retry chain (main.cpp:198-204): each firing runs
`tries++`, then `if (setOnce() || tries > 20) clearInterval(t)`.  `tries`
is the JS counter value before the increment; `fuel` is a structural
bound on the remaining firings — since `tries` grows by one per firing
and the loop stops once `tries` exceeds 20, `21 - tries` firings always
suffice, so the fuel-exhaustion branch is never reached from `jsRestore`.  -/
def pollLoop (readyAt : ℕ → Bool) (t : ℚ) (dur : Option ℚ)
    (pausedTruthy : Bool) : ℕ → ℕ → RestoreOutcome
  | tries, 0 => .exhausted tries
  | tries, fuel + 1 =>
    match setOnce (readyAt (tries + 1)) t dur pausedTruthy with
    | some (p, pl) => .applied p pl (tries + 1)
    | none =>
      if tries + 1 > 20 then .exhausted (tries + 1)
      else pollLoop readyAt t dur pausedTruthy (tries + 1) fuel

/-- The injected restore script applied to the interpolated state object
`st` (main.cpp:184-211): if an audio element exists and `state.time` is a
number, attempt an immediate `setOnce`, falling back to the 500 ms polling
loop; otherwise fall back to `window.player.seek(state.time)` followed by
`play()` when `!state.paused`. -/
def jsRestore (env : MediaEnv) (st : Json) : RestoreOutcome :=
  match env.audioPresent, jLookup st "time" with
  | true, some (.num t) =>
    let pt := jTruthy (jLookup st "paused")
    match setOnce (env.readyAt 0) t env.duration pt with
    | some (p, pl) => .applied p pl 0
    | none => pollLoop env.readyAt t env.duration pt 0 21
  | _, _ =>
    if env.playerSeek then
      .playerFallback (jLookup st "time") (!jTruthy (jLookup st "paused"))
    else .noRestore

/-! ## Helper lemmas -/

theorem jLookup_mkStateJson_id (id : String) (t : ℚ) (p : Bool) :
    jLookup (mkStateJson id t p) "id" = some (.str id) := rfl

theorem jLookup_mkStateJson_time (id : String) (t : ℚ) (p : Bool) :
    jLookup (mkStateJson id t p) "time" = some (.num t) := rfl

theorem jLookup_mkStateJson_paused (id : String) (t : ℚ) (p : Bool) :
    jLookup (mkStateJson id t p) "paused" = some (.bool p) := rfl

/-- Updating one key leaves lookups of every other key unchanged. -/
theorem lookupField_setField_ne (l : List (String × Json)) (key k : String)
    (v : Json) (h : k ≠ key) :
    lookupField (setField l key v) k = lookupField l k := by
  induction l with
  | nil => simp [setField, lookupField, Ne.symm h]
  | cons hd tl ih =>
    obtain ⟨a, b⟩ := hd
    simp only [setField]
    by_cases hk : a = key
    · subst hk
      simp [lookupField, Ne.symm h]
    · simp only [if_neg hk, lookupField]
      by_cases hk2 : a = k
      · simp [hk2]
      · simp [hk2, ih]

/-- Stamping `saved_at` leaves every other field unchanged. -/
theorem jLookup_stampSavedAt_ne (j : Json) (now : String) (k : String)
    (h : k ≠ "saved_at") :
    jLookup (stampSavedAt j now) k = jLookup j k := by
  unfold jLookup stampSavedAt
  simp [docObject, lookupField_setField_ne _ _ _ _ h]

/-- Keys of the document's top-level object, in order. -/
def fieldKeys : Json → List String
  | .obj fields => fields.map Prod.fst
  | _ => []

/-- A raw-fallback capture writes the failed text verbatim. -/
theorem captureStep_raw (s now : String) (prev : Option JText) (hs : s ≠ "") :
    captureStep (some (.invalid s)) now true prev = some (.invalid s) := by
  simp [captureStep, JText.isEmpty, hs]

/-- Normalizing a freshly stamped state object recovers the original
descriptor: the `saved_at` stamp is appended after `id`, `time`, `paused`
and the three lookups are unaffected. -/
theorem normalizeState_stamp (id : String) (t : ℚ) (p : Bool) (now : String) :
    normalizeState (stampSavedAt (mkStateJson id t p) now) = mkStateJson id t p := rfl

/-- If the element is never ready through attempt 21, the interval chain
runs to `tries = 21` and clears itself there. -/
theorem pollLoop_gives_up (readyAt : ℕ → Bool) (t : ℚ) (dur : Option ℚ)
    (pt : Bool) :
    ∀ fuel tries, tries + fuel = 21 →
    (∀ n, n ≤ 21 → readyAt n = false) →
    pollLoop readyAt t dur pt tries fuel = .exhausted 21 := by
  intro fuel
  induction fuel with
  | zero =>
    intro tries htf _
    have h21 : tries = 21 := by omega
    subst h21
    rfl
  | succ f ih =>
    intro tries htf h
    have hr : readyAt (tries + 1) = false := h _ (by omega)
    have step : pollLoop readyAt t dur pt tries (f + 1)
        = if tries + 1 > 20 then RestoreOutcome.exhausted (tries + 1)
          else pollLoop readyAt t dur pt (tries + 1) f := by
      simp [pollLoop, setOnce, hr]
    rw [step]
    by_cases h20 : tries + 1 > 20
    · rw [if_pos h20]
      have : tries + 1 = 21 := by omega
      rw [this]
    · rw [if_neg h20]
      exact ih (tries + 1) (by omega) h

/-- If the element first becomes ready at attempt `k ≤ 21`, the interval
chain applies the clamped position at exactly that attempt. -/
theorem pollLoop_succeeds (readyAt : ℕ → Bool) (t : ℚ) (dur : Option ℚ)
    (pt : Bool) (k : ℕ) (hk : readyAt k = true)
    (hmin : ∀ n, n < k → readyAt n = false) (hk21 : k ≤ 21) :
    ∀ fuel tries, tries + fuel = 21 → tries < k →
    pollLoop readyAt t dur pt tries fuel = .applied (clampPos t dur) (!pt) k := by
  intro fuel
  induction fuel with
  | zero => intro tries htf hlt; omega
  | succ f ih =>
    intro tries htf hlt
    by_cases heq : tries + 1 = k
    · simp [pollLoop, setOnce, heq, hk]
    · have hr : readyAt (tries + 1) = false := hmin _ (by omega)
      have h20 : ¬tries + 1 > 20 := by omega
      have step : pollLoop readyAt t dur pt tries (f + 1)
          = pollLoop readyAt t dur pt (tries + 1) f := by
        simp [pollLoop, setOnce, hr, h20]
      rw [step]
      exact ih (tries + 1) (by omega) (by omega)

/-- With an audio element present whose immediate attempt fails, the
injected script reduces to the interval chain started at `tries = 0` with
fuel for all firings. -/
theorem jsRestore_polling (readyAt : ℕ → Bool) (dur : Option ℚ) (ps : Bool)
    (id : String) (t : ℚ) (paused : Bool) (h0 : readyAt 0 = false) :
    jsRestore ⟨true, readyAt, dur, ps⟩ (mkStateJson id t paused)
      = pollLoop readyAt t dur paused 0 21 := by
  simp [jsRestore, jLookup_mkStateJson_time, jLookup_mkStateJson_paused,
    jTruthy, setOnce, h0]

/-! ## Claims -/

/-- Claim C1 (round-trip): a descriptor with string id, position and
paused flag that capture parses and writes is, on the next successful
load, handed back to the restore script with the same id; with a ready
audio element of known (nonzero) duration the applied position is
`min position duration ≤ duration`, and `play()` is invoked iff
`paused = false`. -/
theorem C1_round_trip (id now : String) (pos : ℚ) (paused : Bool)
    (prev : Option JText) (d : ℚ) (readyAt : ℕ → Bool) (ps : Bool)
    (_hpos : 0 ≤ pos) (hd : 0 < d) (hready : readyAt 0 = true) :
    captureStep (some (.valid (mkStateJson id pos paused))) now true prev
      = some (.valid (stampSavedAt (mkStateJson id pos paused) now)) ∧
    restoreStep true (some (.valid (stampSavedAt (mkStateJson id pos paused) now))) true
      = (.dispatch (mkStateJson id pos paused),
         some (.valid (stampSavedAt (mkStateJson id pos paused) now))) ∧
    jsRestore ⟨true, readyAt, some d, ps⟩ (mkStateJson id pos paused)
      = .applied (min pos d) (!paused) 0 ∧
    min pos d ≤ d ∧ ((!paused) = true ↔ paused = false) := by
  refine ⟨rfl, ?_, ?_, min_le_right _ _, by simp⟩
  · simp [restoreStep, normalizeState_stamp]
  · simp [jsRestore, jLookup_mkStateJson_time, jLookup_mkStateJson_paused,
      jTruthy, setOnce, hready, clampPos, hd.ne']

theorem C1_round_trip_witness :
    captureStep (some (.valid (mkStateJson "song42" 5 false))) "2024-01-01T00:00:00Z" true none
      = some (.valid (stampSavedAt (mkStateJson "song42" 5 false) "2024-01-01T00:00:00Z")) ∧
    restoreStep true
      (some (.valid (stampSavedAt (mkStateJson "song42" 5 false) "2024-01-01T00:00:00Z"))) true
      = (.dispatch (mkStateJson "song42" 5 false),
         some (.valid (stampSavedAt (mkStateJson "song42" 5 false) "2024-01-01T00:00:00Z"))) ∧
    jsRestore ⟨true, fun _ => true, some 10, false⟩ (mkStateJson "song42" 5 false)
      = .applied (min 5 10) true 0 ∧
    min (5 : ℚ) 10 ≤ 10 ∧ ((!false) = true ↔ false = false) :=
  C1_round_trip "song42" "2024-01-01T00:00:00Z" 5 false none 10 (fun _ => true) false
    (by norm_num) (by norm_num) rfl

/-- Claim C2, corrected (polling bound): when the immediate set fails,
the code re-attempts at 500 ms intervals at most 21 times (not 20): each
firing runs `tries++` and then `if (setOnce() || tries > 20)
clearInterval(t)`, so `setOnce` is still attempted at `tries = 21`.  If
the element never becomes ready it gives up silently after the 21st
attempt; if it becomes ready on any poll up to the 21st (e.g. the 15th),
restoration succeeds at that poll. -/
theorem C2_retry_bound (id : String) (t : ℚ) (paused : Bool)
    (dur : Option ℚ) (readyAt : ℕ → Bool) (ps : Bool)
    (h0 : readyAt 0 = false) :
    ((∀ n, n ≤ 21 → readyAt n = false) →
      jsRestore ⟨true, readyAt, dur, ps⟩ (mkStateJson id t paused)
        = .exhausted 21) ∧
    (∀ k, 1 ≤ k → k ≤ 21 → readyAt k = true →
      (∀ n, n < k → readyAt n = false) →
      jsRestore ⟨true, readyAt, dur, ps⟩ (mkStateJson id t paused)
        = .applied (clampPos t dur) (!paused) k) := by
  constructor
  · intro h
    rw [jsRestore_polling readyAt dur ps id t paused h0]
    exact pollLoop_gives_up readyAt t dur paused 21 0 rfl h
  · intro k h1 h21 hk hmin
    rw [jsRestore_polling readyAt dur ps id t paused h0]
    exact pollLoop_succeeds readyAt t dur paused k hk hmin h21 21 0 rfl (by omega)

theorem C2_retry_bound_witness :
    jsRestore ⟨true, fun n => n == 15, some 200, false⟩ (mkStateJson "song" 500 false)
      = .applied 200 true 15 := by
  have h := (C2_retry_bound "song" 500 false (some 200) (fun n => n == 15) false rfl).2
    15 (by norm_num) (by norm_num) rfl
    (fun n hn => by rw [beq_eq_false_iff_ne]; omega)
  exact h

/-- Claim C2 is false as stated: with an element that is not ready on any
of the immediate attempt and polls 1..20 but becomes ready at poll 21,
restoration still succeeds (at attempt 21), so the loop neither stops at
20 re-attempts nor gives up after the 20th; and with an element that is
never ready the loop only clears itself after its 21st firing. -/
theorem C2_retry_counterexample :
    (((List.range 21).all fun n => !(n == 21)) = true) ∧
    jsRestore ⟨true, fun n => n == 21, none, false⟩ (mkStateJson "song" 3 true)
      = .applied 3 false 21 ∧
    jsRestore ⟨true, fun _ => false, none, false⟩ (mkStateJson "song" 3 true)
      = .exhausted 21 :=
  ⟨rfl, rfl, rfl⟩

/-- Claim C3, corrected (clamping): with a ready audio element and a
known nonzero duration `d`, the position applied is exactly
`min position d` — so a persisted 500 against duration 200 yields 200 —
but there is no lower clamp: `Math.min(state.time, audio.duration ||
state.time)` passes a negative persisted position through unchanged, so
the applied position can be negative. -/
theorem C3_clamp_min (id : String) (t d : ℚ) (paused : Bool) (ps : Bool)
    (readyAt : ℕ → Bool) (hd : d ≠ 0) (hready : readyAt 0 = true) :
    jsRestore ⟨true, readyAt, some d, ps⟩ (mkStateJson id t paused)
      = .applied (min t d) (!paused) 0 := by
  simp [jsRestore, jLookup_mkStateJson_time, jLookup_mkStateJson_paused,
    jTruthy, setOnce, hready, clampPos, hd]

theorem C3_clamp_min_witness :
    jsRestore ⟨true, fun _ => true, some 200, false⟩ (mkStateJson "song" 500 true)
      = .applied 200 false 0 := by
  have h := C3_clamp_min "song" 500 200 true false (fun _ => true) (by norm_num) rfl
  exact h

/-- Claim C3 is false as stated: a persisted position of -5 against a
ready element of duration 200 is applied as -5, a negative position. -/
theorem C3_negative_counterexample :
    jsRestore ⟨true, fun _ => true, some 200, false⟩ (mkStateJson "song" (-5) true)
      = .applied (-5) false 0 ∧ (-5 : ℚ) < 0 :=
  ⟨rfl, by norm_num⟩

/-- Claim C4 (fallback write): a non-empty extraction result that fails
parsing is written to storage verbatim — the resulting contents are the
raw text itself, independent of the previous contents and with no
`saved_at` stamp (the stamp is only added on the parse-success branch). -/
theorem C4_fallback_write (s now : String) (prev : Option JText) (hs : s ≠ "") :
    captureStep (some (.invalid s)) now true prev = some (.invalid s) :=
  captureStep_raw s now prev hs

theorem C4_fallback_write_witness :
    captureStep (some (.invalid "not json")) "2024-01-01T00:00:00Z" true
      (some (.valid (mkStateJson "old" 7 false)))
      = some (.invalid "not json") :=
  C4_fallback_write "not json" "2024-01-01T00:00:00Z"
    (some (.valid (mkStateJson "old" 7 false))) (by decide)

/-- Claim C5 (capture idempotence): two captures from the same live page
state write, for any pair of timestamps and any previous file contents,
objects that agree on every field other than `saved_at` — in particular
on `id`, `time` and `paused`. -/
theorem C5_capture_idempotent (env : PageEnv) (now1 now2 : String)
    (prev1 prev2 : Option JText) (k : String) (hk : k ≠ "saved_at") :
    captureStep (some (js_read_state env)) now1 true prev1
      = some (.valid (stampSavedAt (readJson env) now1)) ∧
    captureStep (some (js_read_state env)) now2 true prev2
      = some (.valid (stampSavedAt (readJson env) now2)) ∧
    jLookup (stampSavedAt (readJson env) now1) k
      = jLookup (stampSavedAt (readJson env) now2) k := by
  refine ⟨rfl, rfl, ?_⟩
  rw [jLookup_stampSavedAt_ne _ _ _ hk, jLookup_stampSavedAt_ne _ _ _ hk]

theorem C5_capture_idempotent_witness :
    captureStep (some (js_read_state ⟨"#song9", "/player", "now playing", none, none, none⟩))
      "2024-01-01T00:00:00Z" true none
      = some (.valid (stampSavedAt
          (readJson ⟨"#song9", "/player", "now playing", none, none, none⟩)
          "2024-01-01T00:00:00Z")) ∧
    captureStep (some (js_read_state ⟨"#song9", "/player", "now playing", none, none, none⟩))
      "2024-01-01T00:00:04Z" true
      (some (.valid (stampSavedAt
        (readJson ⟨"#song9", "/player", "now playing", none, none, none⟩)
        "2024-01-01T00:00:00Z")))
      = some (.valid (stampSavedAt
          (readJson ⟨"#song9", "/player", "now playing", none, none, none⟩)
          "2024-01-01T00:00:04Z")) ∧
    jLookup (stampSavedAt (readJson ⟨"#song9", "/player", "now playing", none, none, none⟩)
        "2024-01-01T00:00:00Z") "time"
      = jLookup (stampSavedAt (readJson ⟨"#song9", "/player", "now playing", none, none, none⟩)
        "2024-01-01T00:00:04Z") "time" :=
  C5_capture_idempotent ⟨"#song9", "/player", "now playing", none, none, none⟩
    "2024-01-01T00:00:00Z" "2024-01-01T00:00:04Z" none
    (some (.valid (stampSavedAt
      (readJson ⟨"#song9", "/player", "now playing", none, none, none⟩)
      "2024-01-01T00:00:00Z")))
    "time" (by decide)

/-- Claim C6 (restore precondition safety): on a load-completion event
with a false success flag, an absent storage file, or a file that cannot
be opened, restore performs no content-surface mutation, leaves the file
untouched, and raises no error. -/
theorem C6_restore_noop (ok : Bool) (file : Option JText) (openOk : Bool)
    (h : ok = false ∨ file = none ∨ openOk = false) :
    restoreStep ok file openOk = (.noop, file) := by
  rcases h with h | h | h
  · subst h
    simp [restoreStep]
  · subst h
    cases ok <;> simp [restoreStep]
  · subst h
    cases ok <;> cases file <;> simp [restoreStep]

theorem C6_restore_noop_witness :
    restoreStep false none true = (.noop, none) :=
  C6_restore_noop false none true (Or.inl rfl)

/-- Claim C7 (restore parse-failure atomicity): on any storage artifact
whose contents fail parsing, restore dispatches no script, raises no
error, and leaves the file unchanged — regardless of the load flag and
whether the open succeeds; consequently the artifact produced by a
raw-fallback capture is never successfully restored. -/
theorem C7_fallback_never_restored (s now : String) (prev : Option JText)
    (ok openOk : Bool) :
    restoreStep ok (some (.invalid s)) openOk = (.noop, some (.invalid s)) ∧
    (s ≠ "" →
      restoreStep true (captureStep (some (.invalid s)) now true prev) true
        = (.noop, captureStep (some (.invalid s)) now true prev)) := by
  constructor
  · cases ok <;> cases openOk <;> simp [restoreStep]
  · intro hs
    rw [captureStep_raw s now prev hs]
    simp [restoreStep]

theorem C7_fallback_never_restored_witness :
    restoreStep true (some (.invalid "oops")) true = (.noop, some (.invalid "oops")) ∧
    restoreStep true (captureStep (some (.invalid "oops")) "2024-01-01T00:00:00Z" true none) true
      = (.noop, captureStep (some (.invalid "oops")) "2024-01-01T00:00:00Z" true none) := by
  have h := C7_fallback_never_restored "oops" "2024-01-01T00:00:00Z" none true true
  exact ⟨h.1, h.2 (by decide)⟩

/-- Claim C8 (restore normalization): on a parse-success artifact the
dispatched state object is the normalized descriptor, every missing field
is replaced by its default (`id = ""`, `time = 0`, `paused = true`), and
the object carries exactly the keys `id`, `time`, `paused`. -/
theorem C8_normalized_descriptor (j : Json) :
    restoreStep true (some (.valid j)) true
      = (.dispatch (normalizeState j), some (.valid j)) ∧
    (jLookup j "id" = none → jLookup (normalizeState j) "id" = some (.str "")) ∧
    (jLookup j "time" = none → jLookup (normalizeState j) "time" = some (.num 0)) ∧
    (jLookup j "paused" = none → jLookup (normalizeState j) "paused" = some (.bool true)) ∧
    fieldKeys (normalizeState j) = ["id", "time", "paused"] := by
  refine ⟨rfl, ?_, ?_, ?_, rfl⟩
  · intro h
    have e : jLookup (normalizeState j) "id"
        = some (.str (jvToStringD (jLookup j "id") (jvToString (jLookup j "id")))) := rfl
    rw [e, h]
    rfl
  · intro h
    have e : jLookup (normalizeState j) "time"
        = some (.num (jvToDouble (jLookup j "time") 0)) := rfl
    rw [e, h]
    rfl
  · intro h
    have e : jLookup (normalizeState j) "paused"
        = some (.bool (jvToBool (jLookup j "paused") true)) := rfl
    rw [e, h]
    rfl

theorem C8_normalized_descriptor_witness :
    restoreStep true (some (.valid (Json.arr []))) true
      = (.dispatch (normalizeState (Json.arr [])), some (.valid (Json.arr []))) ∧
    jLookup (normalizeState (Json.arr [])) "id" = some (.str "") ∧
    jLookup (normalizeState (Json.arr [])) "time" = some (.num 0) ∧
    jLookup (normalizeState (Json.arr [])) "paused" = some (.bool true) := by
  have h := C8_normalized_descriptor (Json.arr [])
  exact ⟨h.1, h.2.1 rfl, h.2.2.1 rfl, h.2.2.2.1 rfl⟩

/-- Claim C9 (non-object document): an artifact that parses as a top-level
array is not treated as a parse failure — `doc.object()` yields the empty
object, restoration proceeds with the all-default descriptor
`{id: "", time: 0, paused: true}`, and a ready audio element of positive
duration is seeked to position 0 without `play()`. -/
theorem C9_array_document (xs : List Json) (readyAt : ℕ → Bool) (d : ℚ)
    (ps : Bool) (hready : readyAt 0 = true) (hd : 0 < d) :
    restoreStep true (some (.valid (Json.arr xs))) true
      = (.dispatch (mkStateJson "" 0 true), some (.valid (Json.arr xs))) ∧
    jsRestore ⟨true, readyAt, some d, ps⟩ (mkStateJson "" 0 true)
      = .applied 0 false 0 := by
  constructor
  · rfl
  · have h0 : min (0 : ℚ) d = 0 := min_eq_left hd.le
    simp [jsRestore, jLookup_mkStateJson_time, jLookup_mkStateJson_paused,
      jTruthy, setOnce, hready, clampPos, hd.ne', h0]

theorem C9_array_document_witness :
    restoreStep true (some (.valid (Json.arr [Json.num 1, Json.str "x"]))) true
      = (.dispatch (mkStateJson "" 0 true),
         some (.valid (Json.arr [Json.num 1, Json.str "x"]))) ∧
    jsRestore ⟨true, fun _ => true, some 180, false⟩ (mkStateJson "" 0 true)
      = .applied 0 false 0 :=
  C9_array_document [Json.num 1, Json.str "x"] (fun _ => true) 180 false rfl (by norm_num)

/-- Claim C10 (blank-page overwrite): on a page exposing neither an audio
element nor the site player's accessors, extraction still succeeds and
yields `{id, time: 0, paused: true}`, and a single capture tick writes
that descriptor to storage regardless of — and thereby destroying — any
previously persisted contents. -/
theorem C10_blank_page_overwrite (hash path title now : String)
    (prev : Option JText) :
    js_read_state ⟨hash, path, title, none, none, none⟩
      = .valid (mkStateJson (pageId ⟨hash, path, title, none, none, none⟩) 0 true) ∧
    captureStep (some (js_read_state ⟨hash, path, title, none, none, none⟩)) now true prev
      = some (.valid (stampSavedAt
          (mkStateJson (pageId ⟨hash, path, title, none, none, none⟩) 0 true) now)) :=
  ⟨rfl, rfl⟩

end Player
